import Mathlib

/-!
# Verification of the `demo-premium-school` proxy server

Shallow embedding of the two Express router variants of this repository
(`src/app.js` and `src/unnamed/part_000`) and of their shared helper
`processImageUrlsToBase64`, together with proofs about the behaviour the
specification describes.

JSON payloads are modelled by the inductive `Json` below; JavaScript
runtime behaviour (truthiness, property access, `String.prototype`
operations on code units) is embedded explicitly where the source relies
on it.  Network effects (`fetch` of image URLs, the upstream GAS call,
the GitHub call) are modelled as explicit environment inputs: a handler
receives the outcome the network produced and computes the HTTP response
the JavaScript code would send.
-/

namespace DemoPremiumSchool

/-- A JSON value, as produced by `JSON.parse` / consumed by `res.json`:
null, booleans, numbers, strings, arrays, and objects (ordered key/value
lists; JavaScript objects cannot hold duplicate keys, but nothing below
depends on that).  Numbers are modelled as integers; no claim depends on
non-integral numerics. -/
inductive Json where
  | null : Json
  | bool : Bool → Json
  | num : Int → Json
  | str : String → Json
  | arr : List Json → Json
  | obj : List (String × Json) → Json
deriving Inhabited

/-- JavaScript truthiness of a JSON value: `null`, `false`, `0` and `""`
are falsy; every other JSON value (including `[]` and `{}`) is truthy. -/
def Json.truthy : Json → Bool
  | .null => false
  | .bool b => b
  | .num n => n != 0
  | .str s => s != ""
  | .arr _ => true
  | .obj _ => true

/-- Look a key up in an object's field list (first match, as JavaScript
property access on parsed JSON). -/
def lookupField : List (String × Json) → String → Option Json
  | [], _ => none
  | (k', v) :: rest, k => if k' == k then some v else lookupField rest k

/-- JavaScript property access `j.k` on a JSON value: `some v` when `j`
is an object carrying the key, `none` (i.e. `undefined`) otherwise.
(The one place property access on `null` throws instead is modelled at
its call site in the `/api/:action` handler.) -/
def Json.getProp : Json → String → Option Json
  | .obj fs, k => lookupField fs k
  | _, _ => none

/-- Truthiness of a possibly-`undefined` JavaScript value:
`undefined` is falsy. -/
def truthyProp : Option Json → Bool
  | none => false
  | some j => j.truthy

/-- Replace the value stored under a key (first match) in a field list. -/
def setField : List (String × Json) → String → Json → List (String × Json)
  | [], _, _ => []
  | (k', v) :: rest, k, newV =>
      if k' == k then (k', newV) :: rest else (k', v) :: setField rest k newV

/-- In-place mutation of the value under key `k` of an object, as the
JavaScript assignment through a retained reference does (no-op on
non-objects). -/
def Json.setProp : Json → String → Json → Json
  | .obj fs, k, v => .obj (setField fs k v)
  | j, _, _ => j

/-- JavaScript `s.startsWith(p)`: `p`'s code units are a prefix of
`s`'s. -/
def jsStartsWith (s p : String) : Bool := p.data.isPrefixOf s.data

/-- JavaScript `s.substring(0, n)`: the first `n` code units of `s`. -/
def jsSubstringTo (s : String) (n : Nat) : String := String.mk (s.data.take n)

/-! ## Base64 (Node's `Buffer.prototype.toString('base64')`) -/

/-- The RFC 4648 base64 alphabet. -/
def base64Alphabet : List Char :=
  ['A','B','C','D','E','F','G','H','I','J','K','L','M','N','O','P',
   'Q','R','S','T','U','V','W','X','Y','Z',
   'a','b','c','d','e','f','g','h','i','j','k','l','m','n','o','p',
   'q','r','s','t','u','v','w','x','y','z',
   '0','1','2','3','4','5','6','7','8','9','+','/']

/-- The base64 digit for a 6-bit value. -/
def b64c (n : Nat) : Char := base64Alphabet.getD n 'A'

/-- Standard padded base64 of a byte sequence (bytes are `Nat`s below
256), as Node's `imageBuffer.toString('base64')` produces. -/
def base64Encode : List Nat → String
  | [] => ""
  | [b1] =>
      String.mk [b64c (b1 / 4), b64c (b1 % 4 * 16), '=', '=']
  | [b1, b2] =>
      String.mk [b64c (b1 / 4), b64c (b1 % 4 * 16 + b2 / 16), b64c (b2 % 16 * 4), '=']
  | b1 :: b2 :: b3 :: rest =>
      String.mk [b64c (b1 / 4), b64c (b1 % 4 * 16 + b2 / 16),
                 b64c (b2 % 16 * 4 + b3 / 64), b64c (b3 % 64)]
        ++ base64Encode rest

/-! ## The image fetch environment and the media resolver -/

/-- Outcome of `fetch(url)` on an image URL, from the resolver's point
of view: a success (`response.ok`) carries the `content-type` header
(`none` when the header is absent) and the body bytes; `httpError` is a
response with `response.ok` false; `transportError` is a thrown
`fetch`/body-read error. -/
inductive FetchResult where
  | ok : Option String → List Nat → FetchResult
  | httpError : Nat → FetchResult
  | transportError : String → FetchResult

/-- The image-fetch environment: what `fetch` returns per URL within one
request (deterministic for that request). -/
def FetchEnv := String → FetchResult

/-- `response.headers.get('content-type') || 'image/jpeg'`: the header
value, with both an absent header (`null`) and an empty header value
falling back to `image/jpeg` (JavaScript `||` on the falsy `""`). -/
def contentTypeOrDefault : Option String → String
  | none => "image/jpeg"
  | some t => if t == "" then "image/jpeg" else t

/-- The source's prefix test
`v.startsWith('http://') || v.startsWith('https://')`. -/
def isHttpUrl (s : String) : Bool :=
  jsStartsWith s "http://" || jsStartsWith s "https://"

/-- The data URI built on a successful image fetch:
``data:${contentType};base64,${imageBuffer.toString('base64')}``. -/
def dataUri (ct : Option String) (bytes : List Nat) : String :=
  "data:" ++ contentTypeOrDefault ct ++ ";base64," ++ base64Encode bytes

/-- What one object entry's string value becomes in
`processImageUrlsToBase64`: a key exactly `PhotoURL` whose string starts
with `http://` or `https://` is fetched — on `response.ok` the value is
replaced by the data URI, on a non-ok status or a thrown error the
original URL string is kept; every other string is untouched. -/
def resolvePhotoStr (env : FetchEnv) (k : String) (s : String) : String :=
  if k == "PhotoURL" && isHttpUrl s then
    match env s with
    | .ok ct bytes => dataUri ct bytes
    | .httpError _ => s
    | .transportError _ => s
  else s

mutual

/-- `processImageUrlsToBase64` of both router files: depth-first walk
that rewrites `PhotoURL` http(s) string fields and recurses into nested
arrays and objects; scalars are returned unchanged (the JavaScript
returns without touching non-objects).  The in-place mutation is
modelled by returning the rewritten value. -/
def processImageUrlsToBase64 (env : FetchEnv) : Json → Json
  | .arr xs => .arr (processItems env xs)
  | .obj fs => .obj (processFields env fs)
  | j => j

/-- The `for (const item of data)` loop over an array's elements. -/
def processItems (env : FetchEnv) : List Json → List Json
  | [] => []
  | x :: xs => processImageUrlsToBase64 env x :: processItems env xs

/-- The `for (const key in data)` loop over an object's own entries: a
string value goes through the `PhotoURL` replacement (and, being a
string afterwards, is never recursed into — exactly as the source's
`typeof data[key] === 'object'` test after the replacement); arrays and
objects are recursed into; other scalars are kept. -/
def processFields (env : FetchEnv) : List (String × Json) → List (String × Json)
  | [] => []
  | (k, .str s) :: rest => (k, .str (resolvePhotoStr env k s)) :: processFields env rest
  | (k, .arr xs) :: rest => (k, .arr (processItems env xs)) :: processFields env rest
  | (k, .obj fs) :: rest => (k, .obj (processFields env fs)) :: processFields env rest
  | (k, v) :: rest => (k, v) :: processFields env rest

end

/-! ## The HTTP routers -/

/-- An HTTP response: status and body (text bodies are `.str`). -/
structure HttpResponse where
  status : Nat
  body : Json

/-- Outcome of the upstream GAS `fetch` for one request: a thrown
transport error, or a response with its HTTP status, raw body text, and
the result of `JSON.parse` on that text (`none` when the text is not
parseable JSON; `JSON.parse` itself is a JavaScript library function and
is modelled by this field). -/
inductive GasOutcome where
  | transportError : String → GasOutcome
  | response : Nat → String → Option Json → GasOutcome

/-- `response.ok` of node-fetch: status in the range [200, 300). -/
def respOk (st : Nat) : Bool := decide (200 ≤ st ∧ st < 300)

/-- `{ success: false, error: msg }`. -/
def errEnv (msg : String) : Json :=
  .obj [("success", .bool false), ("error", .str msg)]

/-- `{ success: false, error: msg, details: d }`. -/
def errEnvD (msg d : String) : Json :=
  .obj [("success", .bool false), ("error", .str msg), ("details", .str d)]

/-- The V8 message of the `TypeError` thrown by `result.success` when
`result` is `null` (upstream body `"null"` parses to `null`, and the
media-resolution guard `result.success && result.data` then throws into
the surrounding `catch`). -/
def nullSuccessReadMsg : String := "Cannot read properties of null (reading 'success')"

/-- The diagnostic snippet both files pass to `console.error` when the
upstream body is not JSON: `responseBodyText.substring(0, 500)`. -/
def parseErrorSnippet (bodyText : String) : String := jsSubstringTo bodyText 500

/-- The media-resolution step of `src/unnamed/part_000`'s `/api/:action`
success path: when `result.success` and `result.data` are truthy, run
`processImageUrlsToBase64` over `result.data` (in place, i.e. the
`data` field now holds the rewritten value); otherwise `result` is
untouched. -/
def resolveDataStep (env : FetchEnv) (result : Json) : Json :=
  if truthyProp (result.getProp "success") && truthyProp (result.getProp "data") then
    result.setProp "data" (processImageUrlsToBase64 env ((result.getProp "data").getD Json.null))
  else result

/-- The `/api/:action` handler of `src/unnamed/part_000` (lines
126–167): guard on an empty action, then map the upstream outcome —
thrown fetch error → 500 proxy-error envelope; non-JSON body → 500
non-JSON envelope; non-ok status → forward the parsed body (or a
synthesized envelope when that body is falsy) under the upstream status
(or 502 when the status is 0); ok → on a parsed `null` the guard's
property access throws into the `catch` (500 proxy-error envelope),
otherwise respond 200 with the (possibly media-resolved) result. -/
def apiActionB (env : FetchEnv) (action : String) (outcome : GasOutcome) : HttpResponse :=
  if action == "" then ⟨400, errEnv "Action parameter is required"⟩
  else
    match outcome with
    | .transportError msg =>
        ⟨500, errEnvD ("Proxy server error during action: " ++ action ++ ".") msg⟩
    | .response st _ none =>
        ⟨500, errEnv ("GAS returned non-JSON response for action " ++ action
                       ++ ". Status: " ++ toString st)⟩
    | .response st _ (some result) =>
        if !respOk st then
          ⟨if st == 0 then 502 else st,
           if result.truthy then result
           else errEnv ("Upstream GAS error for " ++ action ++ ": " ++ toString st)⟩
        else
          match result with
          | .null =>
              ⟨500, errEnvD ("Proxy server error during action: " ++ action ++ ".")
                    nullSuccessReadMsg⟩
          | _ => ⟨200, resolveDataStep env result⟩

/-- The `/api/:action` handler of `src/app.js` (lines 176–217):
textually identical to `apiActionB` except that the body of
`if (gasResponse.ok && result.success && result.data) { ... }` is
commented out — the guard (and hence the throw on a parsed `null`)
still runs, but no media resolution happens and the parsed result is
forwarded verbatim. -/
def apiActionA (action : String) (outcome : GasOutcome) : HttpResponse :=
  if action == "" then ⟨400, errEnv "Action parameter is required"⟩
  else
    match outcome with
    | .transportError msg =>
        ⟨500, errEnvD ("Proxy server error during action: " ++ action ++ ".") msg⟩
    | .response st _ none =>
        ⟨500, errEnv ("GAS returned non-JSON response for action " ++ action
                       ++ ". Status: " ++ toString st)⟩
    | .response st _ (some result) =>
        if !respOk st then
          ⟨if st == 0 then 502 else st,
           if result.truthy then result
           else errEnv ("Upstream GAS error for " ++ action ++ ": " ++ toString st)⟩
        else
          match result with
          | .null =>
              ⟨500, errEnvD ("Proxy server error during action: " ++ action ++ ".")
                    nullSuccessReadMsg⟩
          | _ => ⟨200, result⟩

/-- The `/login` handler, identical in both files: require truthy
`mobile` and `password` in the body, then map the upstream outcome as
`/api/:action` does (with login-specific messages) — and never run
media resolution. -/
def loginHandler (body : Json) (outcome : GasOutcome) : HttpResponse :=
  if !(truthyProp (body.getProp "mobile") && truthyProp (body.getProp "password")) then
    ⟨400, errEnv "Mobile and password required"⟩
  else
    match outcome with
    | .transportError msg =>
        ⟨500, errEnvD "Proxy server error during login." msg⟩
    | .response st _ none =>
        ⟨500, errEnv ("GAS returned non-JSON response. Status: " ++ toString st)⟩
    | .response st _ (some result) =>
        if !respOk st then
          ⟨if st == 0 then 502 else st,
           if result.truthy then result
           else errEnv ("Upstream GAS error: " ++ toString st)⟩
        else ⟨200, result⟩

/-! ## The GitHub uploader (`src/app.js` only) -/

/-- The three GitHub environment variables of `src/app.js`; each is
`none` when unset (and the empty string is falsy wherever they are
tested). -/
structure GithubConfig where
  token : Option String
  owner : Option String
  repo : Option String

/-- JavaScript truthiness of an environment variable:
unset or empty is falsy. -/
def envSet : Option String → Bool
  | none => false
  | some s => s != ""

/-- The guard `!GITHUB_API_TOKEN || !GITHUB_OWNER || !GITHUB_REPO`
(negated): all three variables are set and non-empty. -/
def githubConfigured (c : GithubConfig) : Bool :=
  envSet c.token && envSet c.owner && envSet c.repo

/-- Outcome of the GitHub contents-API `fetch`: a thrown error (from
`fetch` itself or from reading the response as JSON), or a response
with its status and parsed JSON body. -/
inductive GithubOutcome where
  | transportError : String → GithubOutcome
  | response : Nat → Json → GithubOutcome

/-- `${result.message || 'Failed to upload file.'}`: the `message`
property when truthy (template-interpolated), the fixed fallback
otherwise.  Interpolation of non-string JSON values follows
JavaScript's string conversion. -/
def githubErrMsg (result : Json) : String :=
  match result.getProp "message" with
  | some (.str m) => if m == "" then "Failed to upload file." else m
  | some (.num n) => if n == 0 then "Failed to upload file." else toString n
  | some (.bool b) => if b then "true" else "Failed to upload file."
  | some (.arr _) => "[array]"
  | some (.obj _) => "[object Object]"
  | some .null => "Failed to upload file."
  | none => "Failed to upload file."

/-- The `/upload-image` handler of `src/app.js` (lines 134–174).  The
second component records whether the GitHub network call was made: the
configuration guard and the body validation both return before any
`fetch`.  `result.content?.download_url` is optional-chained, so only a
parsed `null` result throws (into the `catch`). -/
def uploadImageHandler (cfg : GithubConfig) (body : Json) (outcome : GithubOutcome) :
    HttpResponse × Bool :=
  if !githubConfigured cfg then
    (⟨500, errEnv "GitHub integration is not configured on the server."⟩, false)
  else if !(truthyProp (body.getProp "image") && truthyProp (body.getProp "fileName")) then
    (⟨400, errEnv "Image data and file name are required."⟩, false)
  else
    match outcome with
    | .transportError msg =>
        (⟨500, errEnvD "Server error during image upload." msg⟩, true)
    | .response _ .null =>
        (⟨500, errEnvD "Server error during image upload."
               "Cannot read properties of null (reading 'content')"⟩, true)
    | .response st result =>
        match (result.getProp "content").bind (fun c => c.getProp "download_url") with
        | some url =>
            if respOk st && url.truthy then
              (⟨200, .obj [("success", .bool true), ("url", url)]⟩, true)
            else
              (⟨if st == 0 then 502 else st,
                errEnv ("GitHub API Error: " ++ githubErrMsg result)⟩, true)
        | none =>
            (⟨if st == 0 then 502 else st,
              errEnv ("GitHub API Error: " ++ githubErrMsg result)⟩, true)

/-- The sanitization `fileName.replace(/[^a-zA-Z0-9.\-]/g, '_')` acts
code unit by code unit: a character in the class is kept, every other
one becomes `_`. -/
def sanitizeChar (c : Char) : Char :=
  if ('a' ≤ c ∧ c ≤ 'z') ∨ ('A' ≤ c ∧ c ≤ 'Z') ∨ ('0' ≤ c ∧ c ≤ '9') ∨ c = '.' ∨ c = '-'
  then c else '_'

/-- `` `${new Date().getTime()}-${fileName.replace(...)}` `` — the
millisecond timestamp, a `-`, and the sanitized name. -/
def sanitizedFileName (now : Nat) (fileName : String) : String :=
  toString now ++ "-" ++ String.mk (fileName.data.map sanitizeChar)

/-- `` `images/${sanitizedFileName}` `` — the storage path sent to the
GitHub contents API. -/
def filePath (now : Nat) (fileName : String) : String :=
  "images/" ++ sanitizedFileName now fileName

/-! ## The two router variants, request level -/

/-- One inbound request together with the network outcomes its handling
would observe (the network is an input of the model).  Static-file
routes are omitted: they are byte-identical in the two files and serve
local files. -/
inductive Request where
  | login : Json → GasOutcome → Request
  | apiAction : String → Json → GasOutcome → Request
  | uploadImage : Json → GithubOutcome → Request
  | health : Request
  | unmatched : Request

/-- The `src/app.js` router: `/login`, `/api/:action` (media resolution
commented out), `/upload-image`, `/health`, and the 404 fallback. -/
def routeA (cfg : GithubConfig) : Request → HttpResponse
  | .login body outcome => loginHandler body outcome
  | .apiAction action _ outcome => apiActionA action outcome
  | .uploadImage body outcome => (uploadImageHandler cfg body outcome).1
  | .health => ⟨200, .str "OK"⟩
  | .unmatched => ⟨404, .str "Resource not found on proxy."⟩

/-- The `src/unnamed/part_000` router: `/login`, `/api/:action` (media
resolution active, hence the fetch environment), `/health`, and the 404
fallback — there is no `/upload-image` route in this file, so that path
falls through to the 404 handler. -/
def routeB (env : FetchEnv) : Request → HttpResponse
  | .login body outcome => loginHandler body outcome
  | .apiAction action _ outcome => apiActionB env action outcome
  | .uploadImage _ _ => ⟨404, .str "Resource not found on proxy."⟩
  | .health => ⟨200, .str "OK"⟩
  | .unmatched => ⟨404, .str "Resource not found on proxy."⟩

/-! ## Auxiliary predicates for the frame claims -/

/-- A fetch outcome that is not an `ok` response (non-2xx status or
thrown transport error). -/
def fetchFailed : FetchResult → Bool
  | .ok _ _ => false
  | .httpError _ => true
  | .transportError _ => true

mutual

/-- No key named exactly `PhotoURL` occurs anywhere in the value. -/
def noPhotoURL : Json → Bool
  | .arr xs => noPhotoURLItems xs
  | .obj fs => noPhotoURLFields fs
  | _ => true

def noPhotoURLItems : List Json → Bool
  | [] => true
  | x :: xs => noPhotoURL x && noPhotoURLItems xs

def noPhotoURLFields : List (String × Json) → Bool
  | [] => true
  | (k, v) :: rest => !(k == "PhotoURL") && noPhotoURL v && noPhotoURLFields rest

end

mutual

/-- Mask every string stored under a key named exactly `PhotoURL`
(recursively) to `null`.  Two values agree under this mask exactly when
they differ at most in strings held by `PhotoURL` keys — the only
positions the resolver may write. -/
def maskPhoto : Json → Json
  | .arr xs => .arr (maskPhotoItems xs)
  | .obj fs => .obj (maskPhotoFields fs)
  | j => j

def maskPhotoItems : List Json → List Json
  | [] => []
  | x :: xs => maskPhoto x :: maskPhotoItems xs

def maskPhotoFields : List (String × Json) → List (String × Json)
  | [] => []
  | (k, .str s) :: rest =>
      (k, if k == "PhotoURL" then Json.null else .str s) :: maskPhotoFields rest
  | (k, .arr xs) :: rest => (k, .arr (maskPhotoItems xs)) :: maskPhotoFields rest
  | (k, .obj fs) :: rest => (k, .obj (maskPhotoFields fs)) :: maskPhotoFields rest
  | (k, v) :: rest => (k, v) :: maskPhotoFields rest

end

/-! ## Concrete fixtures used as test inputs -/

/-- A fetch environment in which every URL fails at transport level. -/
def envFail : FetchEnv := fun _ => .transportError "connect ECONNREFUSED"

/-- A fetch environment returning a PNG (first four signature bytes) with
content-type `image/png` for every URL. -/
def envPng : FetchEnv := fun _ => .ok (some "image/png") [137, 80, 78, 71]

/-- A fetch environment whose responses carry no content-type header. -/
def envNoCT : FetchEnv := fun _ => .ok none [77, 97, 110]

/-- A fetch environment whose responses carry an empty content-type
header value. -/
def envEmptyCT : FetchEnv := fun _ => .ok (some "") []

/-- An unconfigured GitHub environment (all three variables unset). -/
def cfgUnset : GithubConfig := ⟨none, none, none⟩

/-- A fully configured GitHub environment. -/
def cfgSet : GithubConfig := ⟨some "tok", some "owner", some "repo"⟩

/-- A small payload with one nested `PhotoURL` field. -/
def samplePayload : Json :=
  .obj [("success", .bool true),
        ("data", .arr [.obj [("Name", .str "A"), ("PhotoURL", .str "https://img.example/a.png")]])]

/-! ## Lemmas about the resolver -/

theorem resolvePhotoStr_of_ne (env : FetchEnv) (k s : String) (h : ¬k = "PhotoURL") :
    resolvePhotoStr env k s = s := by
  simp [resolvePhotoStr, beq_eq_false_iff_ne.mpr h]

theorem resolvePhotoStr_of_not_http (env : FetchEnv) (k s : String)
    (h : isHttpUrl s = false) : resolvePhotoStr env k s = s := by
  simp [resolvePhotoStr, h]

theorem resolvePhotoStr_of_failed (env : FetchEnv) (k s : String)
    (h : fetchFailed (env s) = true) : resolvePhotoStr env k s = s := by
  unfold resolvePhotoStr
  cases henv : env s with
  | ok ct bytes => rw [henv] at h; simp [fetchFailed] at h
  | httpError st => simp
  | transportError m => simp

/-- A data URI starts with `data:`, hence with neither `http://` nor
`https://`. -/
theorem isHttpUrl_dataUri (ct : Option String) (bytes : List Nat) :
    isHttpUrl (dataUri ct bytes) = false := by
  have hd : (dataUri ct bytes).data =
      'd' :: 'a' :: 't' :: 'a' :: ':' ::
        (contentTypeOrDefault ct ++ ";base64," ++ base64Encode bytes).data := by
    simp [dataUri, ← String.append_assoc, String.data_append]
  simp [isHttpUrl, jsStartsWith, hd, List.isPrefixOf]

theorem resolvePhotoStr_idem (env : FetchEnv) (k s : String) :
    resolvePhotoStr env k (resolvePhotoStr env k s) = resolvePhotoStr env k s := by
  by_cases hk : k = "PhotoURL"
  · subst hk
    by_cases hs : isHttpUrl s = true
    · cases henv : env s with
      | ok ct bytes =>
          have h1 : resolvePhotoStr env "PhotoURL" s = dataUri ct bytes := by
            simp [resolvePhotoStr, hs, henv]
          rw [h1, resolvePhotoStr_of_not_http env _ _ (isHttpUrl_dataUri ct bytes)]
      | httpError st =>
          have h1 : resolvePhotoStr env "PhotoURL" s = s := by
            simp [resolvePhotoStr, hs, henv]
          rw [h1, h1]
      | transportError m =>
          have h1 : resolvePhotoStr env "PhotoURL" s = s := by
            simp [resolvePhotoStr, hs, henv]
          rw [h1, h1]
    · rw [resolvePhotoStr_of_not_http env _ _ (Bool.eq_false_iff.mpr hs),
          resolvePhotoStr_of_not_http env _ _ (Bool.eq_false_iff.mpr hs)]
  · rw [resolvePhotoStr_of_ne env _ _ hk, resolvePhotoStr_of_ne env _ _ hk]

/-! ## Structural lemmas about the walk -/

mutual

theorem process_idem (env : FetchEnv) : (j : Json) →
    processImageUrlsToBase64 env (processImageUrlsToBase64 env j) =
      processImageUrlsToBase64 env j
  | .null => rfl
  | .bool _ => rfl
  | .num _ => rfl
  | .str _ => rfl
  | .arr xs => by simp [processImageUrlsToBase64, processItems_idem env xs]
  | .obj fs => by simp [processImageUrlsToBase64, processFields_idem env fs]

theorem processItems_idem (env : FetchEnv) : (xs : List Json) →
    processItems env (processItems env xs) = processItems env xs
  | [] => rfl
  | x :: xs => by simp [processItems, process_idem env x, processItems_idem env xs]

theorem processFields_idem (env : FetchEnv) : (fs : List (String × Json)) →
    processFields env (processFields env fs) = processFields env fs
  | [] => rfl
  | (k, .str s) :: rest => by
      simp [processFields, resolvePhotoStr_idem env k s, processFields_idem env rest]
  | (k, .arr xs) :: rest => by
      simp [processFields, processItems_idem env xs, processFields_idem env rest]
  | (k, .obj fs) :: rest => by
      simp [processFields, processFields_idem env fs, processFields_idem env rest]
  | (k, .null) :: rest => by simp [processFields, processFields_idem env rest]
  | (k, .bool _) :: rest => by simp [processFields, processFields_idem env rest]
  | (k, .num _) :: rest => by simp [processFields, processFields_idem env rest]

end

mutual

theorem process_noPhoto (env : FetchEnv) : (j : Json) → noPhotoURL j = true →
    processImageUrlsToBase64 env j = j
  | .null, _ => rfl
  | .bool _, _ => rfl
  | .num _, _ => rfl
  | .str _, _ => rfl
  | .arr xs, h => by
      simp only [noPhotoURL] at h
      simp [processImageUrlsToBase64, processItems_noPhoto env xs h]
  | .obj fs, h => by
      simp only [noPhotoURL] at h
      simp [processImageUrlsToBase64, processFields_noPhoto env fs h]

theorem processItems_noPhoto (env : FetchEnv) : (xs : List Json) →
    noPhotoURLItems xs = true → processItems env xs = xs
  | [], _ => rfl
  | x :: xs, h => by
      simp only [noPhotoURLItems, Bool.and_eq_true] at h
      simp [processItems, process_noPhoto env x h.1, processItems_noPhoto env xs h.2]

theorem processFields_noPhoto (env : FetchEnv) : (fs : List (String × Json)) →
    noPhotoURLFields fs = true → processFields env fs = fs
  | [], _ => rfl
  | (k, v) :: rest, h => by
      simp only [noPhotoURLFields, Bool.and_eq_true, Bool.not_eq_true'] at h
      have hk : ¬k = "PhotoURL" := by
        intro he; rw [he] at h; simp at h
      match v with
      | .str s =>
          simp [processFields, resolvePhotoStr_of_ne env k s hk,
                processFields_noPhoto env rest h.2]
      | .arr xs =>
          have hx : noPhotoURLItems xs = true := by
            have := h.1.2; simpa [noPhotoURL] using this
          simp [processFields, processItems_noPhoto env xs hx,
                processFields_noPhoto env rest h.2]
      | .obj fs' =>
          have hx : noPhotoURLFields fs' = true := by
            have := h.1.2; simpa [noPhotoURL] using this
          simp [processFields, processFields_noPhoto env fs' hx,
                processFields_noPhoto env rest h.2]
      | .null => simp [processFields, processFields_noPhoto env rest h.2]
      | .bool _ => simp [processFields, processFields_noPhoto env rest h.2]
      | .num _ => simp [processFields, processFields_noPhoto env rest h.2]

end

mutual

theorem maskPhoto_process (env : FetchEnv) : (j : Json) →
    maskPhoto (processImageUrlsToBase64 env j) = maskPhoto j
  | .null => rfl
  | .bool _ => rfl
  | .num _ => rfl
  | .str _ => rfl
  | .arr xs => by simp [processImageUrlsToBase64, maskPhoto, maskPhotoItems_process env xs]
  | .obj fs => by simp [processImageUrlsToBase64, maskPhoto, maskPhotoFields_process env fs]

theorem maskPhotoItems_process (env : FetchEnv) : (xs : List Json) →
    maskPhotoItems (processItems env xs) = maskPhotoItems xs
  | [] => rfl
  | x :: xs => by
      simp [processItems, maskPhotoItems, maskPhoto_process env x,
            maskPhotoItems_process env xs]

theorem maskPhotoFields_process (env : FetchEnv) : (fs : List (String × Json)) →
    maskPhotoFields (processFields env fs) = maskPhotoFields fs
  | [] => rfl
  | (k, .str s) :: rest => by
      by_cases hk : k = "PhotoURL"
      · simp [processFields, maskPhotoFields, hk, maskPhotoFields_process env rest]
      · simp [processFields, maskPhotoFields, resolvePhotoStr_of_ne env k s hk,
              maskPhotoFields_process env rest]
  | (k, .arr xs) :: rest => by
      simp [processFields, maskPhotoFields, maskPhotoItems_process env xs,
            maskPhotoFields_process env rest]
  | (k, .obj fs') :: rest => by
      simp [processFields, maskPhotoFields, maskPhotoFields_process env fs',
            maskPhotoFields_process env rest]
  | (k, .null) :: rest => by
      simp [processFields, maskPhotoFields, maskPhotoFields_process env rest]
  | (k, .bool _) :: rest => by
      simp [processFields, maskPhotoFields, maskPhotoFields_process env rest]
  | (k, .num _) :: rest => by
      simp [processFields, maskPhotoFields, maskPhotoFields_process env rest]

end

mutual

theorem process_allFail (env : FetchEnv) (hf : ∀ u, fetchFailed (env u) = true) :
    (j : Json) → processImageUrlsToBase64 env j = j
  | .null => rfl
  | .bool _ => rfl
  | .num _ => rfl
  | .str _ => rfl
  | .arr xs => by simp [processImageUrlsToBase64, processItems_allFail env hf xs]
  | .obj fs => by simp [processImageUrlsToBase64, processFields_allFail env hf fs]

theorem processItems_allFail (env : FetchEnv) (hf : ∀ u, fetchFailed (env u) = true) :
    (xs : List Json) → processItems env xs = xs
  | [] => rfl
  | x :: xs => by
      simp [processItems, process_allFail env hf x, processItems_allFail env hf xs]

theorem processFields_allFail (env : FetchEnv) (hf : ∀ u, fetchFailed (env u) = true) :
    (fs : List (String × Json)) → processFields env fs = fs
  | [] => rfl
  | (k, .str s) :: rest => by
      simp [processFields, resolvePhotoStr_of_failed env k s (hf s),
            processFields_allFail env hf rest]
  | (k, .arr xs) :: rest => by
      simp [processFields, processItems_allFail env hf xs, processFields_allFail env hf rest]
  | (k, .obj fs') :: rest => by
      simp [processFields, processFields_allFail env hf fs', processFields_allFail env hf rest]
  | (k, .null) :: rest => by simp [processFields, processFields_allFail env hf rest]
  | (k, .bool _) :: rest => by simp [processFields, processFields_allFail env hf rest]
  | (k, .num _) :: rest => by simp [processFields, processFields_allFail env hf rest]

end

/-! ## Lemmas about property update -/

theorem lookupField_setField_ne (fs : List (String × Json)) (k k' : String) (v : Json)
    (h : ¬k = k') : lookupField (setField fs k v) k' = lookupField fs k' := by
  induction fs with
  | nil => rfl
  | cons kv rest ih =>
      obtain ⟨k0, v0⟩ := kv
      by_cases h0 : k0 = k
      · subst h0
        have hk' : (k0 == k') = false := beq_eq_false_iff_ne.mpr h
        simp [setField, lookupField, hk']
      · simp [setField, lookupField, beq_eq_false_iff_ne.mpr h0, ih]

theorem getProp_setProp_ne (j : Json) (k k' : String) (v : Json) (h : ¬k = k') :
    (j.setProp k v).getProp k' = j.getProp k' := by
  cases j <;> simp [Json.setProp, Json.getProp, lookupField_setField_ne _ _ _ _ h]

/-- The media-resolution step never touches the `success` field. -/
theorem getProp_resolveDataStep_success (env : FetchEnv) (r : Json) :
    (resolveDataStep env r).getProp "success" = r.getProp "success" := by
  unfold resolveDataStep
  split
  · exact getProp_setProp_ne _ _ _ _ (by decide)
  · rfl

/-- The two `/api/:action` variants answer with the same status on
every input: they differ only in the body of the ok branch. -/
theorem apiActionB_status_eq (env : FetchEnv) (action : String) (outcome : GasOutcome) :
    (apiActionB env action outcome).status = (apiActionA action outcome).status := by
  unfold apiActionB apiActionA
  by_cases ha : (action == "") = true
  · simp [ha]
  · cases outcome with
    | transportError m => simp [ha]
    | response st bt parsed =>
        cases parsed with
        | none => simp [ha]
        | some r =>
            by_cases hok : (!respOk st) = true
            · simp [ha, hok]
            · simp only [ha, hok, Bool.false_eq_true, if_false]
              cases r <;> simp

/-- The two `/api/:action` variants agree outright except on the ok
branch with a parsed non-null body, where `apiActionA` forwards the
body verbatim and `apiActionB` applies the media-resolution step. -/
theorem apiActionB_eq_or_resolve (env : FetchEnv) (action : String) (outcome : GasOutcome) :
    apiActionB env action outcome = apiActionA action outcome ∨
    (∃ st bt r, outcome = GasOutcome.response st bt (some r) ∧
       apiActionA action outcome = ⟨200, r⟩ ∧
       apiActionB env action outcome = ⟨200, resolveDataStep env r⟩) := by
  unfold apiActionB apiActionA
  by_cases ha : (action == "") = true
  · left; simp [ha]
  · cases outcome with
    | transportError m => left; simp [ha]
    | response st bt parsed =>
        cases parsed with
        | none => left; simp [ha]
        | some r =>
            by_cases hok : (!respOk st) = true
            · left; simp [ha, hok]
            · cases r with
              | null => left; simp [ha, hok]
              | bool b =>
                  right
                  exact ⟨st, bt, .bool b, rfl, by simp [ha, hok], by simp [ha, hok]⟩
              | num n =>
                  right
                  exact ⟨st, bt, .num n, rfl, by simp [ha, hok], by simp [ha, hok]⟩
              | str s =>
                  right
                  exact ⟨st, bt, .str s, rfl, by simp [ha, hok], by simp [ha, hok]⟩
              | arr xs =>
                  right
                  exact ⟨st, bt, .arr xs, rfl, by simp [ha, hok], by simp [ha, hok]⟩
              | obj fs =>
                  right
                  exact ⟨st, bt, .obj fs, rfl, by simp [ha, hok], by simp [ha, hok]⟩

theorem getProp_null (k : String) : Json.getProp .null k = none := rfl

theorem getProp_bool (b : Bool) (k : String) : Json.getProp (.bool b) k = none := rfl

theorem getProp_num (n : Int) (k : String) : Json.getProp (.num n) k = none := rfl

theorem getProp_str (s k : String) : Json.getProp (.str s) k = none := rfl

theorem getProp_arr (xs : List Json) (k : String) : Json.getProp (.arr xs) k = none := rfl

theorem getProp_obj (fs : List (String × Json)) (k : String) :
    Json.getProp (.obj fs) k = lookupField fs k := rfl

theorem errEnv_getProp_error (m : String) : (errEnv m).getProp "error" = some (Json.str m) := rfl

theorem errEnvD_getProp_error (m d : String) :
    (errEnvD m d).getProp "error" = some (Json.str m) := rfl

/-- Every `/api/:action` response body of `src/app.js` either carries a
router-synthesized `error` string or is the parsed upstream body
forwarded verbatim. -/
theorem apiActionA_body_cases (action : String) (outcome : GasOutcome) :
    ((apiActionA action outcome).body.getProp "error").isSome = true ∨
    (∃ st bt r, outcome = GasOutcome.response st bt (some r) ∧
       (apiActionA action outcome).body = r) := by
  unfold apiActionA
  by_cases ha : (action == "") = true
  · exact Or.inl (by simp [ha, errEnv_getProp_error])
  · cases outcome with
    | transportError m => exact Or.inl (by simp [ha, errEnvD_getProp_error])
    | response st bt parsed =>
        cases parsed with
        | none => exact Or.inl (by simp [ha, errEnv_getProp_error])
        | some r =>
            by_cases hok : (!respOk st) = true
            · by_cases ht : r.truthy = true
              · exact Or.inr ⟨st, bt, r, rfl, by simp [ha, hok, ht]⟩
              · exact Or.inl (by simp [ha, hok, ht, errEnv_getProp_error])
            · cases r with
              | null => exact Or.inl (by simp [ha, hok, errEnvD_getProp_error])
              | bool b => exact Or.inr ⟨st, bt, .bool b, rfl, by simp [ha, hok]⟩
              | num n => exact Or.inr ⟨st, bt, .num n, rfl, by simp [ha, hok]⟩
              | str s => exact Or.inr ⟨st, bt, .str s, rfl, by simp [ha, hok]⟩
              | arr xs => exact Or.inr ⟨st, bt, .arr xs, rfl, by simp [ha, hok]⟩
              | obj fs => exact Or.inr ⟨st, bt, .obj fs, rfl, by simp [ha, hok]⟩

/-- Every `/api/:action` response body of `src/unnamed/part_000` either
carries a router-synthesized `error` string or is the media-resolution
step applied to the parsed upstream body. -/
theorem apiActionB_body_cases (env : FetchEnv) (action : String) (outcome : GasOutcome) :
    ((apiActionB env action outcome).body.getProp "error").isSome = true ∨
    (∃ st bt r, outcome = GasOutcome.response st bt (some r) ∧
       ((apiActionB env action outcome).body = r ∨
        (apiActionB env action outcome).body = resolveDataStep env r)) := by
  unfold apiActionB
  by_cases ha : (action == "") = true
  · exact Or.inl (by simp [ha, errEnv_getProp_error])
  · cases outcome with
    | transportError m => exact Or.inl (by simp [ha, errEnvD_getProp_error])
    | response st bt parsed =>
        cases parsed with
        | none => exact Or.inl (by simp [ha, errEnv_getProp_error])
        | some r =>
            by_cases hok : (!respOk st) = true
            · by_cases ht : r.truthy = true
              · exact Or.inr ⟨st, bt, r, rfl, Or.inl (by simp [ha, hok, ht])⟩
              · exact Or.inl (by simp [ha, hok, ht, errEnv_getProp_error])
            · cases r with
              | null => exact Or.inl (by simp [ha, hok, errEnvD_getProp_error])
              | bool b => exact Or.inr ⟨st, bt, .bool b, rfl, Or.inr (by simp [ha, hok])⟩
              | num n => exact Or.inr ⟨st, bt, .num n, rfl, Or.inr (by simp [ha, hok])⟩
              | str s => exact Or.inr ⟨st, bt, .str s, rfl, Or.inr (by simp [ha, hok])⟩
              | arr xs => exact Or.inr ⟨st, bt, .arr xs, rfl, Or.inr (by simp [ha, hok])⟩
              | obj fs => exact Or.inr ⟨st, bt, .obj fs, rfl, Or.inr (by simp [ha, hok])⟩

/-- Every `/login` response body either carries a router-synthesized
`error` string or is the parsed upstream body forwarded verbatim. -/
theorem loginHandler_body_cases (body : Json) (outcome : GasOutcome) :
    ((loginHandler body outcome).body.getProp "error").isSome = true ∨
    (∃ st bt r, outcome = GasOutcome.response st bt (some r) ∧
       (loginHandler body outcome).body = r) := by
  unfold loginHandler
  by_cases hv : (!(truthyProp (body.getProp "mobile") && truthyProp (body.getProp "password"))) = true
  · exact Or.inl (by simp [hv, errEnv_getProp_error])
  · cases outcome with
    | transportError m => exact Or.inl (by simp [hv, errEnvD_getProp_error])
    | response st bt parsed =>
        cases parsed with
        | none => exact Or.inl (by simp [hv, errEnv_getProp_error])
        | some r =>
            by_cases hok : (!respOk st) = true
            · by_cases ht : r.truthy = true
              · exact Or.inr ⟨st, bt, r, rfl, by simp [hv, hok, ht]⟩
              · exact Or.inl (by simp [hv, hok, ht, errEnv_getProp_error])
            · exact Or.inr ⟨st, bt, r, rfl, by simp [hv, hok]⟩

/-- Every `/upload-image` response body either carries a synthesized
`error` string or asserts `success: true`; this route never forwards an
upstream body. -/
theorem uploadImageHandler_body_cases (cfg : GithubConfig) (body : Json) (g : GithubOutcome) :
    ((uploadImageHandler cfg body g).1.body.getProp "error").isSome = true ∨
    (uploadImageHandler cfg body g).1.body.getProp "success" = some (Json.bool true) := by
  unfold uploadImageHandler
  by_cases hc : (!githubConfigured cfg) = true
  · exact Or.inl (by simp [hc, errEnv_getProp_error])
  · have hc2 : githubConfigured cfg = true := by simpa using hc
    by_cases hv : (!(truthyProp (body.getProp "image") && truthyProp (body.getProp "fileName"))) = true
    · exact Or.inl (by simp [hc2, hv, errEnv_getProp_error])
    · have hv2 : (truthyProp (body.getProp "image") && truthyProp (body.getProp "fileName")) = true := by
        simpa using hv
      have hi : truthyProp (body.getProp "image") = true := (Bool.and_eq_true _ _ |>.mp hv2).1
      have hf : truthyProp (body.getProp "fileName") = true := (Bool.and_eq_true _ _ |>.mp hv2).2
      cases g with
      | transportError m => exact Or.inl (by simp [hc2, hi, hf, errEnvD_getProp_error])
      | response st r =>
          cases r with
          | null => exact Or.inl (by simp [hc2, hi, hf, errEnvD_getProp_error])
          | bool b => exact Or.inl (by simp [hc2, hi, hf, getProp_bool, errEnv_getProp_error])
          | num n => exact Or.inl (by simp [hc2, hi, hf, getProp_num, errEnv_getProp_error])
          | str s => exact Or.inl (by simp [hc2, hi, hf, getProp_str, errEnv_getProp_error])
          | arr xs => exact Or.inl (by simp [hc2, hi, hf, getProp_arr, errEnv_getProp_error])
          | obj fs =>
              cases hurl : (lookupField fs "content").bind (fun c => c.getProp "download_url") with
              | none => exact Or.inl (by simp [hc2, hi, hf, getProp_obj, hurl, errEnv_getProp_error])
              | some url =>
                  by_cases h1 : respOk st = true
                  · by_cases h2 : url.truthy = true
                    · exact Or.inr (by simp [hc2, hi, hf, getProp_obj, hurl, h1, h2, lookupField])
                    · exact Or.inl (by simp [hc2, hi, hf, getProp_obj, hurl, h1, h2, errEnv_getProp_error])
                  · exact Or.inl (by simp [hc2, hi, hf, getProp_obj, hurl, h1, errEnv_getProp_error])

/-! ## Claims -/

/-- C1 (counterexample): the claim fails when the response carries a
content-type header whose value is the empty string `T = ""`.  The
source computes `response.headers.get('content-type') || 'image/jpeg'`,
and JavaScript `||` treats the empty string as falsy, so the value
becomes `data:image/jpeg;base64,...` and not `data:;base64,...` as the
claim (`data:` ++ T ++ `;base64,` ++ …) demands. -/
theorem C1_counterexample :
    processImageUrlsToBase64 envEmptyCT (Json.obj [("PhotoURL", Json.str "http://img.example/p")])
      = Json.obj [("PhotoURL", Json.str "data:image/jpeg;base64,")] ∧
    ¬("data:image/jpeg;base64," = "data:" ++ "" ++ ";base64," ++ base64Encode []) := by
  constructor
  · simp [processImageUrlsToBase64, processFields, resolvePhotoStr, envEmptyCT, dataUri,
          contentTypeOrDefault, isHttpUrl, jsStartsWith, List.isPrefixOf, base64Encode]
  · decide

/-- C1 (amended): for a payload holding a key named exactly `PhotoURL`
whose string value starts with `http://` or `https://`, when the fetch
succeeds with content-type `ct`, the resolver replaces the value in
place by `data:` ++ mime ++ `;base64,` ++ base64 of the fetched bytes,
where mime is the carried content-type when that is present and
non-empty, and `image/jpeg` when the header is absent **or empty**
(JavaScript `||` on the header value). -/
theorem C1_theorem (env : FetchEnv) (s : String) (ct : Option String) (bytes : List Nat)
    (mime : String) (hs : isHttpUrl s = true) (henv : env s = .ok ct bytes)
    (hmime : (∃ t, ct = some t ∧ ¬t = "" ∧ mime = t) ∨
             ((ct = none ∨ ct = some "") ∧ mime = "image/jpeg")) :
    resolvePhotoStr env "PhotoURL" s = "data:" ++ mime ++ ";base64," ++ base64Encode bytes ∧
    processImageUrlsToBase64 env (Json.obj [("PhotoURL", Json.str s)]) =
      Json.obj [("PhotoURL",
                 Json.str ("data:" ++ mime ++ ";base64," ++ base64Encode bytes))] := by
  have hct : contentTypeOrDefault ct = mime := by
    rcases hmime with ⟨t, hc, hne, hm⟩ | ⟨hc, hm⟩
    · rw [hc, hm]; simp [contentTypeOrDefault, beq_eq_false_iff_ne.mpr hne]
    · rcases hc with hc | hc <;> rw [hc, hm] <;> simp [contentTypeOrDefault]
  have h1 : resolvePhotoStr env "PhotoURL" s =
      "data:" ++ mime ++ ";base64," ++ base64Encode bytes := by
    simp [resolvePhotoStr, hs, henv, dataUri, hct, String.append_assoc]
  exact ⟨h1, by simp [processImageUrlsToBase64, processFields, h1]⟩

/-- C1 (witness): a PNG fetch with content-type `image/png` turns the
`PhotoURL` value into the corresponding `data:image/png;base64,…` URI. -/
theorem C1_witness :
    processImageUrlsToBase64 envPng (Json.obj [("PhotoURL", Json.str "https://img.example/a.png")])
      = Json.obj [("PhotoURL", Json.str "data:image/png;base64,iVBORw==")] := by
  have h := (C1_theorem envPng "https://img.example/a.png" (some "image/png") [137, 80, 78, 71]
      "image/png" (by decide) rfl (Or.inl ⟨"image/png", rfl, by decide, rfl⟩)).2
  have hs : "data:" ++ "image/png" ++ ";base64," ++ base64Encode [137, 80, 78, 71]
      = "data:image/png;base64,iVBORw==" := by decide
  rw [hs] at h
  exact h

/-- C2: the resolver only writes string values stored under keys named
exactly `PhotoURL`: (i) a payload containing no `PhotoURL` key at any
depth is returned unchanged; (ii) masking every string under a
`PhotoURL` key shows all other keys, values, object shapes, array
lengths and element order are preserved; (iii) a string entry whose key
is not `PhotoURL`, or whose value does not start with `http://` or
`https://`, is never rewritten. -/
theorem C2_theorem (env : FetchEnv) (p : Json) :
    (noPhotoURL p = true → processImageUrlsToBase64 env p = p) ∧
    maskPhoto (processImageUrlsToBase64 env p) = maskPhoto p ∧
    (∀ k s, (k = "PhotoURL" → isHttpUrl s = false) → resolvePhotoStr env k s = s) := by
  refine ⟨process_noPhoto env p, maskPhoto_process env p, fun k s h => ?_⟩
  by_cases hk : k = "PhotoURL"
  · exact resolvePhotoStr_of_not_http env k s (h hk)
  · exact resolvePhotoStr_of_ne env k s hk

/-- C2 (witness): a `PhotoURL`-free payload passes through `resolve`
unchanged even when every fetch would succeed. -/
theorem C2_witness :
    processImageUrlsToBase64 envPng
        (Json.obj [("Name", Json.str "A"), ("Url", Json.str "http://img.example/a.png")])
      = Json.obj [("Name", Json.str "A"), ("Url", Json.str "http://img.example/a.png")] :=
  (C2_theorem envPng _).1 (by rfl)

/-- C3: image-fetch failures are absorbed: (i) a `PhotoURL` fetch that
returns a non-ok status or throws leaves the original URL string in
place; (ii) if every fetch fails the whole payload is unchanged;
(iii) the `/api/:action` response status never depends on the image
environment; (iv) an ok upstream response with a parsed JSON-object
envelope is answered 200 (carrying the media-resolved envelope) for
every image environment, failing fetches included. -/
theorem C3_theorem :
    (∀ (env : FetchEnv) (k s : String), fetchFailed (env s) = true →
        resolvePhotoStr env k s = s) ∧
    (∀ (env : FetchEnv) (p : Json), (∀ u, fetchFailed (env u) = true) →
        processImageUrlsToBase64 env p = p) ∧
    (∀ (env env' : FetchEnv) (action : String) (outcome : GasOutcome),
        (apiActionB env action outcome).status = (apiActionB env' action outcome).status) ∧
    (∀ (env : FetchEnv) (action : String) (st : Nat) (bt : String)
        (fields : List (String × Json)), ¬action = "" → respOk st = true →
        apiActionB env action (.response st bt (some (.obj fields)))
          = ⟨200, resolveDataStep env (.obj fields)⟩) := by
  refine ⟨resolvePhotoStr_of_failed, fun env p hf => process_allFail env hf p,
          fun env env' action outcome => ?_,
          fun env action st bt fields ha hok => ?_⟩
  · rw [apiActionB_status_eq env action outcome, apiActionB_status_eq env' action outcome]
  · simp [apiActionB, beq_eq_false_iff_ne.mpr ha, hok]

/-- C3 (witness): with every fetch failing, a success envelope with one
`PhotoURL` is forwarded unchanged under status 200. -/
theorem C3_witness :
    resolvePhotoStr envFail "PhotoURL" "https://img.example/a.png" = "https://img.example/a.png" ∧
    apiActionB envFail "getStudents" (.response 200 "ok body" (some samplePayload))
      = ⟨200, resolveDataStep envFail samplePayload⟩ := by
  constructor
  · exact C3_theorem.1 envFail "PhotoURL" "https://img.example/a.png" rfl
  · exact C3_theorem.2.2.2 envFail "getStudents" 200 "ok body" _ (by decide) (by decide)

/-- C4: `resolve` is idempotent: a `PhotoURL` value that does not start
with `http://` or `https://` (for example an already-converted `data:`
URI, or the empty string) is left unchanged whatever the key, and a
second pass over any payload (under the same fetch environment) changes
nothing. -/
theorem C4_theorem :
    (∀ (env : FetchEnv) (k s : String), isHttpUrl s = false → resolvePhotoStr env k s = s) ∧
    (∀ (env : FetchEnv) (p : Json),
        processImageUrlsToBase64 env (processImageUrlsToBase64 env p) =
          processImageUrlsToBase64 env p) :=
  ⟨resolvePhotoStr_of_not_http, process_idem⟩

/-- C4 (witness): a data URI and the empty string are untouched even
under an all-succeeding fetch environment, and a second pass over the
sample payload is the first pass. -/
theorem C4_witness :
    resolvePhotoStr envPng "PhotoURL" "data:image/png;base64,AAAA"
      = "data:image/png;base64,AAAA" ∧
    resolvePhotoStr envPng "PhotoURL" "" = "" ∧
    processImageUrlsToBase64 envPng (processImageUrlsToBase64 envPng samplePayload) =
      processImageUrlsToBase64 envPng samplePayload :=
  ⟨C4_theorem.1 envPng "PhotoURL" "data:image/png;base64,AAAA" (by decide),
   C4_theorem.1 envPng "PhotoURL" "" (by decide),
   C4_theorem.2 envPng samplePayload⟩

/-- C5 (counterexample): a non-2xx upstream response whose parsed body
is the truthy envelope `{"success": false}` is forwarded verbatim
(`res.status(...).json(result || ...)`), so the Router emits an
envelope with `success: false` and no `error` field. -/
theorem C5_counterexample :
    apiActionB envFail "getStudents"
        (.response 503 "success:false body" (some (Json.obj [("success", Json.bool false)])))
      = ⟨503, Json.obj [("success", Json.bool false)]⟩ ∧
    (Json.obj [("success", Json.bool false)]).getProp "success" = some (Json.bool false) ∧
    (Json.obj [("success", Json.bool false)]).getProp "error" = none := by
  refine ⟨?_, rfl, rfl⟩
  simp [apiActionB, respOk, Json.truthy]

/-- C5 (amended): whenever a JSON response envelope of the Router has
`success` equal to `false` and no `error` field, that envelope is the
upstream's parsed body forwarded verbatim; every envelope the Router
synthesizes itself pairs `success: false` with an `error` field (and
`/upload-image`, which never forwards an upstream body, always pairs
them). -/
theorem C5_theorem :
    (∀ (env : FetchEnv) (action : String) (outcome : GasOutcome),
       (apiActionB env action outcome).body.getProp "success" = some (Json.bool false) →
       (apiActionB env action outcome).body.getProp "error" = none →
       ∃ st bt r, outcome = GasOutcome.response st bt (some r) ∧
         (apiActionB env action outcome).body = r) ∧
    (∀ (action : String) (outcome : GasOutcome),
       (apiActionA action outcome).body.getProp "success" = some (Json.bool false) →
       (apiActionA action outcome).body.getProp "error" = none →
       ∃ st bt r, outcome = GasOutcome.response st bt (some r) ∧
         (apiActionA action outcome).body = r) ∧
    (∀ (body : Json) (outcome : GasOutcome),
       (loginHandler body outcome).body.getProp "success" = some (Json.bool false) →
       (loginHandler body outcome).body.getProp "error" = none →
       ∃ st bt r, outcome = GasOutcome.response st bt (some r) ∧
         (loginHandler body outcome).body = r) ∧
    (∀ (cfg : GithubConfig) (body : Json) (g : GithubOutcome),
       (uploadImageHandler cfg body g).1.body.getProp "success" = some (Json.bool false) →
       ((uploadImageHandler cfg body g).1.body.getProp "error").isSome = true) := by
  refine ⟨fun env action outcome hs he => ?_, fun action outcome hs he => ?_,
          fun body outcome hs he => ?_, fun cfg body g hs => ?_⟩
  · rcases apiActionB_body_cases env action outcome with h | ⟨st, bt, r, ho, hr | hr⟩
    · rw [he] at h; simp at h
    · exact ⟨st, bt, r, ho, hr⟩
    · refine ⟨st, bt, r, ho, ?_⟩
      rw [hr]
      have hsr : r.getProp "success" = some (Json.bool false) := by
        rw [← getProp_resolveDataStep_success env r, ← hr]; exact hs
      have hstep : resolveDataStep env r = r := by
        unfold resolveDataStep
        simp [hsr, truthyProp, Json.truthy]
      rw [hstep]
  · rcases apiActionA_body_cases action outcome with h | ⟨st, bt, r, ho, hr⟩
    · rw [he] at h; simp at h
    · exact ⟨st, bt, r, ho, hr⟩
  · rcases loginHandler_body_cases body outcome with h | ⟨st, bt, r, ho, hr⟩
    · rw [he] at h; simp at h
    · exact ⟨st, bt, r, ho, hr⟩
  · rcases uploadImageHandler_body_cases cfg body g with h | h
    · exact h
    · rw [h] at hs; simp at hs

/-- C5 (witness): at the counterexample input the forwarded upstream
body is exhibited by the amended theorem. -/
theorem C5_witness :
    ∃ st bt r,
      GasOutcome.response 503 "success:false body" (some (Json.obj [("success", Json.bool false)]))
        = GasOutcome.response st bt (some r) ∧
      (apiActionB envFail "getData"
          (.response 503 "success:false body" (some (Json.obj [("success", Json.bool false)])))).body
        = r := by
  exact C5_theorem.1 envFail "getData" _ rfl rfl

/-- C6 (counterexample): the two router variants do not differ only in
media resolution — `src/app.js` serves `/upload-image` (here: 500,
GitHub not configured) while `src/unnamed/part_000` has no such route
and answers 404. -/
theorem C6_counterexample :
    ¬ routeA cfgUnset (Request.uploadImage (Json.obj []) (GithubOutcome.transportError "ECONNREFUSED"))
      = routeB envFail (Request.uploadImage (Json.obj []) (GithubOutcome.transportError "ECONNREFUSED")) :=
  fun h => absurd (congrArg HttpResponse.status h) (by decide)

/-- C6 (amended): the two router variants agree on `/login`, `/health`
and unmatched routes; on `/api/:action` they always agree on the status,
and either agree outright or (ok upstream, parsed non-null body) answer
200 with `src/app.js` forwarding the body verbatim and
`src/unnamed/part_000` applying the media-resolution step to it; but on
`/upload-image` they differ beyond media resolution: the route exists
only in `src/app.js`, and `src/unnamed/part_000` answers 404. -/
theorem C6_theorem (cfg : GithubConfig) (env : FetchEnv) (body : Json) (g : GithubOutcome)
    (outcome : GasOutcome) (action : String) :
    routeA cfg (.login body outcome) = routeB env (.login body outcome) ∧
    routeA cfg .health = routeB env .health ∧
    routeA cfg .unmatched = routeB env .unmatched ∧
    routeB env (.uploadImage body g) = ⟨404, Json.str "Resource not found on proxy."⟩ ∧
    (apiActionB env action outcome).status = (apiActionA action outcome).status ∧
    (apiActionB env action outcome = apiActionA action outcome ∨
      (∃ st bt r, outcome = GasOutcome.response st bt (some r) ∧
        apiActionA action outcome = ⟨200, r⟩ ∧
        apiActionB env action outcome = ⟨200, resolveDataStep env r⟩)) :=
  ⟨rfl, rfl, rfl, rfl, apiActionB_status_eq env action outcome,
   apiActionB_eq_or_resolve env action outcome⟩

/-- C7: a non-JSON upstream body on `/api/:action` yields, for any
upstream status, a 500 response whose error names the non-JSON upstream
response and carries the upstream status; the diagnostic snippet logged
from the raw body is `substring(0, 500)`, of length at most 500. -/
theorem C7_theorem (env : FetchEnv) (action : String) (st : Nat) (bt : String)
    (ha : ¬action = "") :
    apiActionB env action (.response st bt none)
      = ⟨500, errEnv ("GAS returned non-JSON response for action " ++ action
                      ++ ". Status: " ++ toString st)⟩ ∧
    parseErrorSnippet bt = jsSubstringTo bt 500 ∧
    (parseErrorSnippet bt).length ≤ 500 := by
  refine ⟨?_, rfl, ?_⟩
  · simp [apiActionB, beq_eq_false_iff_ne.mpr ha]
  · show (String.mk (bt.data.take 500)).length ≤ 500
    exact List.length_take_le 500 bt.data

/-- C7 (witness): upstream 503 with body `not json` on `/api/anything`
produces the 500 non-JSON envelope carrying status 503. -/
theorem C7_witness :
    apiActionB envFail "anything" (.response 503 "not json" none)
      = ⟨500, errEnv "GAS returned non-JSON response for action anything. Status: 503"⟩ ∧
    (parseErrorSnippet "not json").length ≤ 500 := by
  have h := C7_theorem envFail "anything" 503 "not json" (by decide)
  have hs : "GAS returned non-JSON response for action " ++ "anything" ++ ". Status: "
      ++ toString (503 : Nat) = "GAS returned non-JSON response for action anything. Status: 503" := by
    decide
  rw [hs] at h
  exact ⟨h.1, h.2.2⟩

/-- C8: with any of the three GitHub configuration values absent,
`/upload-image` answers 500 with the missing-configuration envelope,
for every request body and whatever the network would have returned —
and the `false` flag records that no network call is made. -/
theorem C8_theorem (cfg : GithubConfig) (body : Json) (outcome : GithubOutcome)
    (h : cfg.token = none ∨ cfg.owner = none ∨ cfg.repo = none) :
    uploadImageHandler cfg body outcome
      = (⟨500, errEnv "GitHub integration is not configured on the server."⟩, false) := by
  have hc : githubConfigured cfg = false := by
    rcases h with h | h | h <;> simp [githubConfigured, envSet, h]
  simp [uploadImageHandler, hc]

/-- C8 (witness): with all three values unset the handler answers the
missing-configuration envelope without a network call, even on a
well-formed body. -/
theorem C8_witness :
    uploadImageHandler cfgUnset
        (Json.obj [("image", Json.str "QUJD"), ("fileName", Json.str "a.png")])
        (GithubOutcome.transportError "unused")
      = (⟨500, errEnv "GitHub integration is not configured on the server."⟩, false) :=
  C8_theorem cfgUnset _ _ (Or.inl rfl)

/-- C9: the storage path is `images/` ++ timestamp ++ `-` ++ the
original name with every character outside `[A-Za-z0-9.\-]` replaced by
`_`; consequently every character of the sanitized segment lies in
`[A-Za-z0-9.\-_]`. -/
theorem C9_theorem (now : Nat) (fileName : String) :
    filePath now fileName
      = "images/" ++ toString now ++ "-" ++ String.mk (fileName.data.map sanitizeChar) ∧
    ∀ c ∈ (String.mk (fileName.data.map sanitizeChar)).data,
      ('a' ≤ c ∧ c ≤ 'z') ∨ ('A' ≤ c ∧ c ≤ 'Z') ∨ ('0' ≤ c ∧ c ≤ '9') ∨
        c = '.' ∨ c = '-' ∨ c = '_' := by
  constructor
  · simp [filePath, sanitizedFileName, String.append_assoc]
  · intro c hc
    have hc' : c ∈ fileName.data.map sanitizeChar := hc
    obtain ⟨a, _, rfl⟩ := List.mem_map.mp hc'
    unfold sanitizeChar
    by_cases h : ('a' ≤ a ∧ a ≤ 'z') ∨ ('A' ≤ a ∧ a ≤ 'Z') ∨ ('0' ≤ a ∧ a ≤ '9') ∨
        a = '.' ∨ a = '-'
    · rw [if_pos h]; tauto
    · rw [if_neg h]; tauto

/-- C9 (witness): `My Photo (1).png` at timestamp 1700000000000 maps to
`images/1700000000000-My_Photo__1_.png`, and the underscore produced
from the space is in the allowed set. -/
theorem C9_witness :
    filePath 1700000000000 "My Photo (1).png" = "images/1700000000000-My_Photo__1_.png" ∧
    (('a' ≤ '_' ∧ '_' ≤ 'z') ∨ ('A' ≤ '_' ∧ '_' ≤ 'Z') ∨ ('0' ≤ '_' ∧ '_' ≤ '9') ∨
      '_' = '.' ∨ '_' = '-' ∨ '_' = '_') := by
  constructor
  · have h := (C9_theorem 1700000000000 "My Photo (1).png").1
    rw [h]; decide
  · exact (C9_theorem 1700000000000 "My Photo (1).png").2 '_' (by decide)

/-- C10 (counterexample): a 2xx upstream response with JSON body `null`
(so `result.success` is not a readable property) is not forwarded
verbatim under 200: the guard's property access throws and the Router
answers 500 with the proxy-error envelope. -/
theorem C10_counterexample :
    apiActionB envFail "getStudents" (.response 200 "null" (some Json.null))
      = ⟨500, errEnvD "Proxy server error during action: getStudents." nullSuccessReadMsg⟩ ∧
    ¬ apiActionB envFail "getStudents" (.response 200 "null" (some Json.null))
      = ⟨200, Json.null⟩ := by
  refine ⟨?_, fun h => absurd (congrArg HttpResponse.status h) (by decide)⟩
  simp [apiActionB, respOk]

/-- C10 (amended): for a 2xx upstream response with parsed JSON body
other than `null` in which `result.success` or `result.data` is falsy
(absent, `null`, `false`, `0`, or the empty string), the Router responds
200 with the body forwarded verbatim, for every image-fetch environment
(the resolver is never consulted); the parsed body `null` is the one
exception — there the guard's property access throws and the Router
answers 500. -/
theorem C10_theorem (env : FetchEnv) (action : String) (st : Nat) (bt : String) (r : Json)
    (ha : ¬action = "") (hok : respOk st = true) (hnull : ¬r = Json.null)
    (hfalsy : truthyProp (r.getProp "success") = false ∨
              truthyProp (r.getProp "data") = false) :
    apiActionB env action (.response st bt (some r)) = ⟨200, r⟩ := by
  have hstep : resolveDataStep env r = r := by
    unfold resolveDataStep
    rcases hfalsy with h | h <;> simp [h]
  cases r with
  | null => exact absurd rfl hnull
  | bool b =>
      simp [apiActionB, beq_eq_false_iff_ne.mpr ha, hok, resolveDataStep, getProp_bool, truthyProp]
  | num n =>
      simp [apiActionB, beq_eq_false_iff_ne.mpr ha, hok, resolveDataStep, getProp_num, truthyProp]
  | str s =>
      simp [apiActionB, beq_eq_false_iff_ne.mpr ha, hok, resolveDataStep, getProp_str, truthyProp]
  | arr xs =>
      simp [apiActionB, beq_eq_false_iff_ne.mpr ha, hok, resolveDataStep, getProp_arr, truthyProp]
  | obj fs => simpa [apiActionB, beq_eq_false_iff_ne.mpr ha, hok] using hstep

/-- C10 (witness): a success envelope whose `data` is the falsy scalar
`0` bypasses media resolution and is forwarded verbatim under 200. -/
theorem C10_witness :
    apiActionB envPng "echo"
        (.response 200 "success:true data:0 body"
          (some (Json.obj [("success", Json.bool true), ("data", Json.num 0)])))
      = ⟨200, Json.obj [("success", Json.bool true), ("data", Json.num 0)]⟩ :=
  C10_theorem envPng "echo" 200 "success:true data:0 body" _
    (by decide) (by decide) (by simp) (Or.inr (by rfl))

end DemoPremiumSchool
